import Mathlib

/-!
Verification of the gradient-generation core of this repository.

The repository contains two near-identical Python modules:

* `create_gradient_image.py`, embedded below in namespace `Img`: validates that
  width and height are positive numbers, raises typed exceptions on failure,
  guards the radial normalization against a zero maximum, and clamps the RGB
  stack to the range from 0 to 1.
* `create_gradient_on_image.py`, embedded in namespace `Onimg`: only checks
  Python types with isinstance (no positivity check), divides by the distance
  maximum unconditionally, stacks RGB channels without clamping, requires
  centers to be Python floats, and on any exception inside its try blocks
  prints a diagnostic and terminates the process via sys.exit(1).

Python numbers are modelled exactly: ints as an integer, floats as a rational
(the exact value semantics of the source formulas; rounding of IEEE arithmetic
is not modelled).  Square roots force the radial fields into the reals.
-/

/-- A Python argument value as far as the isinstance checks of the source can
distinguish it: an int, a float (exact rational value), or some non-numeric
object. -/
inductive PyVal where
  | pint (z : ℤ)
  | pfloat (q : ℚ)
  | other
deriving DecidableEq

/-- Python isinstance(v, int). -/
def PyVal.isInt : PyVal → Bool
  | .pint _ => true
  | _ => false

/-- Python isinstance(v, float). -/
def PyVal.isFloat : PyVal → Bool
  | .pfloat _ => true
  | _ => false

/-- Python isinstance(v, (int, float)). -/
def PyVal.isNumeric : PyVal → Bool
  | .pint _ => true
  | .pfloat _ => true
  | .other => false

/-- The numeric value carried by a PyVal (0 for a non-numeric object; every
use below is guarded by a numeric check first). -/
def PyVal.toQ : PyVal → ℚ
  | .pint z => (z : ℚ)
  | .pfloat q => q
  | .other => 0

/-- The Python exception classes raised by the source. -/
inductive PyError where
  | typeError
  | valueError
  | runtimeError
deriving DecidableEq

/-- Observable outcome of calling a source function: a returned value, a
raised exception, or process termination (the sys.exit(1) calls of
create_gradient_on_image.py, which also print a diagnostic first). -/
inductive Outcome (α : Type) where
  | ok (a : α)
  | err (e : PyError)
  | exits (code : ℕ)
deriving DecidableEq

/-- Sequencing of Python statements: a raised exception or a process exit
propagates. -/
def Outcome.bind {α β : Type} (o : Outcome α) (f : α → Outcome β) : Outcome β :=
  match o with
  | .ok a => f a
  | .err e => .err e
  | .exits n => .exits n

/-- True when the call returned a value. -/
def Outcome.isOk {α : Type} : Outcome α → Bool
  | .ok _ => true
  | _ => false

/-- True when the call terminated the process. -/
def Outcome.isExits {α : Type} : Outcome α → Bool
  | .exits _ => true
  | _ => false

/-- True when the call raised a TypeError. -/
def Outcome.isErrTE {α : Type} : Outcome α → Bool
  | .err .typeError => true
  | _ => false

/-- True when the call raised a RuntimeError. -/
def Outcome.isErrRT {α : Type} : Outcome α → Bool
  | .err .runtimeError => true
  | _ => false

/-- A 2-D numpy array: a shape together with the entry at each (row, column)
index (indices at or beyond the shape are never inspected). -/
structure Arr2 (α : Type) where
  rows : ℕ
  cols : ℕ
  entry : ℕ → ℕ → α

/-- A 3-D numpy array of shape (rows, cols, 3), as produced by np.stack along
a trailing axis. -/
structure Arr3 where
  rows : ℕ
  cols : ℕ
  entry : ℕ → ℕ → Fin 3 → ℚ

/-- All entries of a 2-D array in row-major order (the order np.max scans;
only membership matters below). -/
def Arr2.entriesList {α : Type} (A : Arr2 α) : List α :=
  (List.range A.rows).flatMap fun r => (List.range A.cols).map fun c => A.entry r c

/-- np.max over a list of values: none on an empty array (numpy raises
ValueError there), otherwise the greatest element. -/
def listMax {α : Type} [LinearOrder α] : List α → Option α
  | [] => none
  | x :: xs => some (xs.foldl max x)

/-- The i-th element of np.linspace(0, 1, n): evenly spaced from 0 to 1
inclusive, a single 0 when n = 1 (np.linspace does not divide by n - 1 in
that case). -/
def linspace01 (n : ℕ) (i : ℕ) : ℚ :=
  if n ≤ 1 then 0 else (i : ℚ) / ((n : ℚ) - 1)

/-- numpy validation of the num argument of np.linspace(0, 1, num): a float
raises TypeError (it cannot be interpreted as an integer), a negative int
raises ValueError, a non-negative int is accepted. -/
def linspaceLen (n : PyVal) : Outcome ℕ :=
  match n with
  | .pint z => if z < 0 then .err .valueError else .ok z.toNat
  | _ => .err .typeError

/-- First result of np.meshgrid(np.linspace(0,1,wn), np.linspace(0,1,hn)):
shape (hn, wn), varying along columns only. -/
def meshgridX (wn hn : ℕ) : Arr2 ℚ :=
  ⟨hn, wn, fun _ c => linspace01 wn c⟩

/-- Second result of np.meshgrid: shape (hn, wn), varying along rows only. -/
def meshgridY (wn hn : ℕ) : Arr2 ℚ :=
  ⟨hn, wn, fun r _ => linspace01 hn r⟩

/-- The expression np.sqrt((X - cx)**2 + (Y - cy)**2) of both
create_radial_gradient variants, elementwise over same-shaped X and Y. -/
noncomputable def distOf (X Y : Arr2 ℚ) (cx cy : ℚ) : Arr2 ℝ :=
  ⟨X.rows, X.cols, fun r c =>
    Real.sqrt (((X.entry r c : ℝ) - (cx : ℝ)) ^ 2 + ((Y.entry r c : ℝ) - (cy : ℝ)) ^ 2)⟩

/-- The expression radial / np.max(radial): every entry divided by a scalar. -/
noncomputable def scaleArr (A : Arr2 ℝ) (m : ℝ) : Arr2 ℝ :=
  ⟨A.rows, A.cols, fun r c => A.entry r c / m⟩

/-- np.max of the distance field over the coordinate grids for the given
dimensions and center, used to state when the radial normalization has a zero
divisor. -/
noncomputable def distMax (wn hn : ℕ) (cx cy : ℚ) : Option ℝ :=
  listMax (distOf (meshgridX wn hn) (meshgridY wn hn) cx cy).entriesList

/-- The shape equality np.stack demands of the three channel arrays. -/
def sameShape3 (a b c : Arr2 ℚ) : Bool :=
  (a.rows == b.rows) && (a.cols == b.cols) && (b.rows == c.rows) && (b.cols == c.cols)

/-- np.stack([a, b, c], axis last): channel k of the result reads channel k's
array. -/
def stack3 (a b c : Arr2 ℚ) : Arr3 :=
  ⟨a.rows, a.cols, fun i j k =>
    if k.val = 0 then a.entry i j else if k.val = 1 then b.entry i j else c.entry i j⟩

/-- np.clip(x, 0, 1): values below 0 become 0, values above 1 become 1. -/
def clip01 (x : ℚ) : ℚ := min (max x 0) 1

/-- The gradient direction enum of both modules. -/
inductive Direction where
  | forward
  | reverse
deriving DecidableEq

/-- A constant test array, used only to build concrete inputs in witnesses
and counterexamples. -/
def constArr (hn wn : ℕ) (v : ℚ) : Arr2 ℚ :=
  ⟨hn, wn, fun _ _ => v⟩

/-- Reads an (r, c) entry of the X grid out of a grid-pair outcome. -/
def gridXval (o : Outcome (Arr2 ℚ × Arr2 ℚ)) (r c : ℕ) : Option ℚ :=
  match o with
  | .ok XY => some (XY.1.entry r c)
  | _ => none

/-- Reads an (r, c) entry of the Y grid out of a grid-pair outcome. -/
def gridYval (o : Outcome (Arr2 ℚ × Arr2 ℚ)) (r c : ℕ) : Option ℚ :=
  match o with
  | .ok XY => some (XY.2.entry r c)
  | _ => none

/-- Reads the (rows, cols) shape of the X grid out of a grid-pair outcome. -/
def gridsShape (o : Outcome (Arr2 ℚ × Arr2 ℚ)) : Option (ℕ × ℕ) :=
  match o with
  | .ok XY => some (XY.1.rows, XY.1.cols)
  | _ => none

/-- Reads an entry of a returned radial field. -/
def radVal (o : Outcome (Arr2 ℝ)) (r c : ℕ) : Option ℝ :=
  match o with
  | .ok A => some (A.entry r c)
  | _ => none

/-- np.max of a returned radial field. -/
noncomputable def radMax (o : Outcome (Arr2 ℝ)) : Option ℝ :=
  match o with
  | .ok A => listMax A.entriesList
  | _ => none

/-- Reads an entry of the radial field returned by the on-image variant; none
when the call failed or returned the NaN-filled array. -/
def radValOn (o : Outcome (Option (Arr2 ℝ))) (r c : ℕ) : Option ℝ :=
  match o with
  | .ok (some A) => some (A.entry r c)
  | _ => none

/-- np.max of the radial field returned by the on-image variant. -/
noncomputable def radMaxOn (o : Outcome (Option (Arr2 ℝ))) : Option ℝ :=
  match o with
  | .ok (some A) => listMax A.entriesList
  | _ => none

/-- Reads entry (r, c, k) of a returned RGB image. -/
def rgbVal (o : Outcome Arr3) (r c : ℕ) (k : Fin 3) : Option ℚ :=
  match o with
  | .ok A => some (A.entry r c k)
  | _ => none

/-- Reads the (rows, cols) shape of a returned RGB image. -/
def rgbShape (o : Outcome Arr3) : Option (ℕ × ℕ) :=
  match o with
  | .ok A => some (A.rows, A.cols)
  | _ => none

namespace Img

/-- validate_width_and_height of create_gradient_image.py: TypeError when a
parameter is not numeric, ValueError when one is not positive. -/
def validate_width_and_height (w h : PyVal) : Outcome Unit :=
  if ¬ w.isNumeric then .err .typeError
  else if ¬ h.isNumeric then .err .typeError
  else if w.toQ ≤ 0 ∨ h.toQ ≤ 0 then .err .valueError
  else .ok ()

/-- validate_center_coordinates of create_gradient_image.py: TypeError when a
coordinate is not numeric. -/
def validate_center_coordinates (cx cy : PyVal) : Outcome Unit :=
  if ¬ cx.isNumeric then .err .typeError
  else if ¬ cy.isNumeric then .err .typeError
  else .ok ()

/-- create_coordinate_grids of create_gradient_image.py: validate, then
np.linspace twice and np.meshgrid.  There is no try block here, so a
np.linspace failure (for example a float width) propagates as raised. -/
def create_coordinate_grids (w h : PyVal) : Outcome (Arr2 ℚ × Arr2 ℚ) :=
  Outcome.bind (validate_width_and_height w h) fun _ =>
  Outcome.bind (linspaceLen w) fun wn =>
  Outcome.bind (linspaceLen h) fun hn =>
  .ok (meshgridX wn hn, meshgridY wn hn)

/-- create_black_to_white_gradient of create_gradient_image.py: validate and
return the X grid. -/
def create_black_to_white_gradient (w h : PyVal) : Outcome (Arr2 ℚ) :=
  Outcome.bind (validate_width_and_height w h) fun _ =>
  Outcome.bind (create_coordinate_grids w h) fun XY =>
  .ok XY.1

/-- create_linear_gradients of create_gradient_image.py: validate and return
both grids. -/
def create_linear_gradients (w h : PyVal) : Outcome (Arr2 ℚ × Arr2 ℚ) :=
  Outcome.bind (validate_width_and_height w h) fun _ =>
  create_coordinate_grids w h

/-- create_radial_gradient of create_gradient_image.py: validate dimensions
and center, then in a try block build the grids, take the elementwise
distance, and divide by np.max only when that max is greater than 0; any
exception inside the try block is re-raised as RuntimeError.  np.max of an
empty array would raise inside the try block, hence the RuntimeError arm on
the none case (unreachable for validated dimensions). -/
noncomputable def create_radial_gradient (w h cx cy : PyVal) : Outcome (Arr2 ℝ) :=
  Outcome.bind (validate_width_and_height w h) fun _ =>
  Outcome.bind (validate_center_coordinates cx cy) fun _ =>
  match create_coordinate_grids w h with
  | .ok XY =>
    let d := distOf XY.1 XY.2 cx.toQ cy.toQ
    match listMax d.entriesList with
    | some m => if 0 < m then .ok (scaleArr d m) else .ok d
    | none => .err .runtimeError
  | .err _ => .err .runtimeError
  | .exits n => .exits n

/-- apply_direction_to_gradient of create_gradient_image.py: 1 - gradient for
REVERSE, the gradient itself for FORWARD.  The isinstance validations cannot
fail for the array and enum argument types modelled here. -/
def apply_direction_to_gradient (g : Arr2 ℚ) (d : Direction) : Arr2 ℚ :=
  match d with
  | .reverse => ⟨g.rows, g.cols, fun r c => 1 - g.entry r c⟩
  | .forward => g

/-- create_rgb_combination of create_gradient_image.py: np.stack of the three
channels then np.clip to the range from 0 to 1; a shape mismatch makes
np.stack raise inside the try block, re-raised as RuntimeError. -/
def create_rgb_combination (a b c : Arr2 ℚ) : Outcome Arr3 :=
  if sameShape3 a b c then
    .ok ⟨a.rows, a.cols, fun i j k => clip01 ((stack3 a b c).entry i j k)⟩
  else .err .runtimeError

end Img

namespace Onimg

/-- create_coordinate_grids of create_gradient_on_image.py: isinstance int
checks raise TypeError; inside the try block a np.linspace failure (negative
dimension) is caught, printed, and the process exits with code 1.  There is
no positivity check, so width or height 0 yields empty grids. -/
def create_coordinate_grids (w h : PyVal) : Outcome (Arr2 ℚ × Arr2 ℚ) :=
  if ¬ w.isInt then .err .typeError
  else if ¬ h.isInt then .err .typeError
  else
    match linspaceLen w, linspaceLen h with
    | .ok wn, .ok hn => .ok (meshgridX wn hn, meshgridY wn hn)
    | _, _ => .exits 1

/-- create_linear_gradients of create_gradient_on_image.py: isinstance int
checks, then the grids; an exception raised by the inner call inside the try
block would be printed and turned into a process exit. -/
def create_linear_gradients (w h : PyVal) : Outcome (Arr2 ℚ × Arr2 ℚ) :=
  if ¬ w.isInt then .err .typeError
  else if ¬ h.isInt then .err .typeError
  else
    match create_coordinate_grids w h with
    | .err _ => .exits 1
    | o => o

/-- create_black_to_white_gradient of create_gradient_on_image.py. -/
def create_black_to_white_gradient (w h : PyVal) : Outcome (Arr2 ℚ) :=
  if ¬ w.isInt then .err .typeError
  else if ¬ h.isInt then .err .typeError
  else
    match create_coordinate_grids w h with
    | .ok XY => .ok XY.1
    | .err _ => .exits 1
    | .exits n => .exits n

/-- create_radial_gradient of create_gradient_on_image.py: isinstance checks
require int dimensions and float (not int) centers; the distance field is
divided by np.max unconditionally.  When that maximum is 0 (the 1-by-1 grid
with center (0.0, 0.0)) the IEEE division 0.0/0.0 silently produces a
NaN-filled array, modelled as ok none since exact reals have no NaN.  np.max
of an empty array (dimension 0) raises inside the try block: printed and
process exit 1. -/
noncomputable def create_radial_gradient (w h cx cy : PyVal) : Outcome (Option (Arr2 ℝ)) :=
  if ¬ w.isInt then .err .typeError
  else if ¬ h.isInt then .err .typeError
  else if ¬ cx.isFloat then .err .typeError
  else if ¬ cy.isFloat then .err .typeError
  else
    match create_coordinate_grids w h with
    | .ok XY =>
      let d := distOf XY.1 XY.2 cx.toQ cy.toQ
      match listMax d.entriesList with
      | some m => if m = 0 then .ok none else .ok (some (scaleArr d m))
      | none => .exits 1
    | .err _ => .exits 1
    | .exits n => .exits n

/-- apply_direction_to_gradient of create_gradient_on_image.py: identical
arithmetic to the other module; the try block body cannot raise on numeric
arrays. -/
def apply_direction_to_gradient (g : Arr2 ℚ) (d : Direction) : Arr2 ℚ :=
  match d with
  | .reverse => ⟨g.rows, g.cols, fun r c => 1 - g.entry r c⟩
  | .forward => g

/-- create_rgb_combination of create_gradient_on_image.py: np.stack along
axis 2 with NO clipping; a shape mismatch makes np.stack raise inside the try
block, which prints and exits the process with code 1. -/
def create_rgb_combination (a b c : Arr2 ℚ) : Outcome Arr3 :=
  if sameShape3 a b c then .ok (stack3 a b c)
  else .exits 1

end Onimg

/-! Helper lemmas about the numpy model. -/

theorem foldl_max_spec {α : Type} [LinearOrder α] (xs : List α) (a : α) :
    a ≤ xs.foldl max a ∧ xs.foldl max a ∈ a :: xs ∧ ∀ x ∈ xs, x ≤ xs.foldl max a := by
  induction xs generalizing a with
  | nil => simp
  | cons y ys ih =>
    obtain ⟨h1, h2, h3⟩ := ih (max a y)
    simp only [List.foldl_cons]
    refine ⟨le_trans (le_max_left a y) h1, ?_, ?_⟩
    · rcases List.mem_cons.1 h2 with hm | hm
      · rw [hm]
        rcases max_choice a y with hc | hc <;> rw [hc] <;> simp
      · exact List.mem_cons_of_mem a (List.mem_cons_of_mem y hm)
    · intro x hx
      rcases List.mem_cons.1 hx with hx2 | hx2
      · rw [hx2]
        exact le_trans (le_max_right a y) h1
      · exact h3 x hx2

theorem listMax_spec {α : Type} [LinearOrder α] {l : List α} {m : α}
    (h : listMax l = some m) : m ∈ l ∧ ∀ x ∈ l, x ≤ m := by
  match l with
  | [] => simp [listMax] at h
  | x :: xs =>
    obtain ⟨h1, h2, h3⟩ := foldl_max_spec xs x
    have hm : m = xs.foldl max x := by
      simpa [listMax] using h.symm
    subst hm
    refine ⟨h2, ?_⟩
    intro y hy
    rcases List.mem_cons.1 hy with hy | hy
    · exact hy ▸ h1
    · exact h3 y hy

theorem listMax_eq_some_of {α : Type} [LinearOrder α] {l : List α} {m : α}
    (hm : m ∈ l) (hb : ∀ x ∈ l, x ≤ m) : listMax l = some m := by
  match l with
  | [] => simp at hm
  | x :: xs =>
    obtain ⟨h1, h2, h3⟩ := foldl_max_spec xs x
    have hle : xs.foldl max x ≤ m := by
      rcases List.mem_cons.1 h2 with hf | hf
      · rw [hf]
        exact hb x (List.mem_cons_self x xs)
      · exact hb _ (List.mem_cons_of_mem x hf)
    have hge : m ≤ xs.foldl max x := by
      rcases List.mem_cons.1 hm with hf | hf
      · rw [hf]
        exact h1
      · exact h3 m hf
    simp [listMax, le_antisymm hle hge]

theorem listMax_isSome {α : Type} [LinearOrder α] {l : List α} (h : l ≠ []) :
    ∃ m, listMax l = some m := by
  match l with
  | [] => exact absurd rfl h
  | x :: xs => exact ⟨xs.foldl max x, rfl⟩

theorem Arr2.mem_entriesList {α : Type} (A : Arr2 α) (x : α) :
    x ∈ A.entriesList ↔ ∃ r, r < A.rows ∧ ∃ c, c < A.cols ∧ A.entry r c = x := by
  simp only [Arr2.entriesList, List.mem_flatMap, List.mem_map, List.mem_range]

theorem Arr2.entry_mem_entriesList {α : Type} (A : Arr2 α) {r c : ℕ}
    (hr : r < A.rows) (hc : c < A.cols) : A.entry r c ∈ A.entriesList :=
  (A.mem_entriesList (A.entry r c)).2 ⟨r, hr, c, hc, rfl⟩

theorem scaleArr_entriesList (A : Arr2 ℝ) (m : ℝ) :
    (scaleArr A m).entriesList = A.entriesList.map fun x => x / m := by
  simp [scaleArr, Arr2.entriesList, List.map_flatMap, List.map_map, Function.comp_def]

theorem linspace01_zero (n : ℕ) : linspace01 n 0 = 0 := by
  simp [linspace01]

theorem linspace01_last {n : ℕ} (h : 1 < n) : linspace01 n (n - 1) = 1 := by
  have hn : ¬ n ≤ 1 := by omega
  have h2 : (2 : ℚ) ≤ (n : ℚ) := by exact_mod_cast (by omega : 2 ≤ n)
  have hden : (n : ℚ) - 1 ≠ 0 := by linarith
  have hcast : ((n - 1 : ℕ) : ℚ) = (n : ℚ) - 1 := by
    have : 1 ≤ n := by omega
    push_cast [this]
    ring
  simp [linspace01, hn, hcast, div_self hden]

theorem validateImg_ok {w h : ℕ} (hw : 1 ≤ w) (hh : 1 ≤ h) :
    Img.validate_width_and_height (.pint (w : ℤ)) (.pint (h : ℤ)) = .ok () := by
  have hwq : ¬ ((PyVal.pint (w : ℤ)).toQ ≤ 0) := by
    simp only [PyVal.toQ, not_le]
    exact_mod_cast Nat.pos_of_ne_zero (by omega)
  have hhq : ¬ ((PyVal.pint (h : ℤ)).toQ ≤ 0) := by
    simp only [PyVal.toQ, not_le]
    exact_mod_cast Nat.pos_of_ne_zero (by omega)
  simp [Img.validate_width_and_height, PyVal.isNumeric, hwq, hhq]

theorem linspaceLen_nat (w : ℕ) : linspaceLen (.pint (w : ℤ)) = .ok w := by
  simp [linspaceLen, Int.toNat_natCast]

theorem gridsImg_ok {w h : ℕ} (hw : 1 ≤ w) (hh : 1 ≤ h) :
    Img.create_coordinate_grids (.pint (w : ℤ)) (.pint (h : ℤ))
      = .ok (meshgridX w h, meshgridY w h) := by
  simp [Img.create_coordinate_grids, validateImg_ok hw hh, linspaceLen_nat, Outcome.bind]

theorem gridsOnimg_ok (w h : ℕ) :
    Onimg.create_coordinate_grids (.pint (w : ℤ)) (.pint (h : ℤ))
      = .ok (meshgridX w h, meshgridY w h) := by
  simp [Onimg.create_coordinate_grids, PyVal.isInt, linspaceLen_nat]

theorem distOf_entriesList_nonneg (X Y : Arr2 ℚ) (cx cy : ℚ) :
    ∀ x ∈ (distOf X Y cx cy).entriesList, 0 ≤ x := by
  intro x hx
  obtain ⟨r, hr, c, hc, he⟩ := ((distOf X Y cx cy).mem_entriesList x).1 hx
  rw [← he]
  exact Real.sqrt_nonneg _

theorem sqrt_sum_sq_eq_zero {a b : ℝ} (h : Real.sqrt (a ^ 2 + b ^ 2) = 0) :
    a = 0 ∧ b = 0 := by
  have h1 : a ^ 2 + b ^ 2 ≤ 0 := Real.sqrt_eq_zero'.1 h
  have ha2 : a ^ 2 = 0 := by nlinarith [sq_nonneg a, sq_nonneg b]
  have hb2 : b ^ 2 = 0 := by nlinarith [sq_nonneg a, sq_nonneg b]
  exact ⟨pow_eq_zero_iff (by norm_num : (2 : ℕ) ≠ 0) |>.mp ha2,
    pow_eq_zero_iff (by norm_num : (2 : ℕ) ≠ 0) |>.mp hb2⟩

theorem distMax_exists {w h : ℕ} (hw : 1 ≤ w) (hh : 1 ≤ h) (cx cy : ℚ) :
    ∃ m : ℝ, distMax w h cx cy = some m ∧ 0 ≤ m ∧
      m ∈ (distOf (meshgridX w h) (meshgridY w h) cx cy).entriesList ∧
      ∀ x ∈ (distOf (meshgridX w h) (meshgridY w h) cx cy).entriesList, x ≤ m := by
  have hne : (distOf (meshgridX w h) (meshgridY w h) cx cy).entriesList ≠ [] := by
    apply List.ne_nil_of_mem
      (a := (distOf (meshgridX w h) (meshgridY w h) cx cy).entry 0 0)
    apply Arr2.entry_mem_entriesList
    · simpa [distOf, meshgridX] using hh
    · simpa [distOf, meshgridX] using hw
  obtain ⟨m, hm⟩ := listMax_isSome hne
  obtain ⟨hmem, hub⟩ := listMax_spec hm
  exact ⟨m, hm, distOf_entriesList_nonneg _ _ _ _ m hmem, hmem, hub⟩

theorem radial_master {w h : ℕ} (hw : 1 ≤ w) (hh : 1 ≤ h) (hwh : 1 < w ∨ 1 < h)
    (cx cy : ℚ) :
    ∃ m : ℝ, distMax w h cx cy = some m ∧ 0 < m ∧
      m ∈ (distOf (meshgridX w h) (meshgridY w h) cx cy).entriesList ∧
      ∀ x ∈ (distOf (meshgridX w h) (meshgridY w h) cx cy).entriesList, x ≤ m := by
  obtain ⟨m, hm, hnn, hmem, hub⟩ := distMax_exists hw hh cx cy
  refine ⟨m, hm, ?_, hmem, hub⟩
  rcases lt_or_eq_of_le hnn with hpos | heq
  · exact hpos
  exfalso
  have hz : ∀ r c, r < h → c < w →
      ((linspace01 w c : ℚ) : ℝ) - (cx : ℝ) = 0 ∧
      ((linspace01 h r : ℚ) : ℝ) - (cy : ℝ) = 0 := by
    intro r c hr hc
    have hmem2 : (distOf (meshgridX w h) (meshgridY w h) cx cy).entry r c
        ∈ (distOf (meshgridX w h) (meshgridY w h) cx cy).entriesList := by
      apply Arr2.entry_mem_entriesList
      · simpa [distOf, meshgridX] using hr
      · simpa [distOf, meshgridX] using hc
    have hle := hub _ hmem2
    have hge := distOf_entriesList_nonneg _ _ _ _ _ hmem2
    have he0 : (distOf (meshgridX w h) (meshgridY w h) cx cy).entry r c = 0 := by
      apply le_antisymm _ hge
      rw [← heq] at hle
      exact hle
    exact sqrt_sum_sq_eq_zero (by simpa [distOf, meshgridX, meshgridY] using he0)
  rcases hwh with hw2 | hh2
  · have h1 := (hz 0 0 (by omega) (by omega)).1
    have h2 := (hz 0 (w - 1) (by omega) (by omega)).1
    rw [linspace01_zero] at h1
    rw [linspace01_last hw2] at h2
    push_cast at h1 h2
    linarith
  · have h1 := (hz 0 0 (by omega) (by omega)).2
    have h2 := (hz (h - 1) 0 (by omega) (by omega)).2
    rw [linspace01_zero] at h1
    rw [linspace01_last hh2] at h2
    push_cast at h1 h2
    linarith

theorem listMax_scale {l : List ℝ} {m : ℝ} (hm : m ∈ l) (hub : ∀ x ∈ l, x ≤ m)
    (hpos : 0 < m) : listMax (l.map fun x => x / m) = some 1 := by
  apply listMax_eq_some_of
  · refine List.mem_map.2 ⟨m, hm, ?_⟩
    exact div_self (ne_of_gt hpos)
  · intro y hy
    obtain ⟨x, hx, hxy⟩ := List.mem_map.1 hy
    rw [← hxy]
    exact (div_le_one hpos).2 (hub x hx)

theorem radialImg_eval {w h : ℕ} (hw : 1 ≤ w) (hh : 1 ≤ h) {cx cy : ℚ} {m : ℝ}
    (hm : distMax w h cx cy = some m) (hpos : 0 < m) :
    Img.create_radial_gradient (.pint (w : ℤ)) (.pint (h : ℤ)) (.pfloat cx) (.pfloat cy)
      = .ok (scaleArr (distOf (meshgridX w h) (meshgridY w h) cx cy) m) := by
  have hm2 : listMax (distOf (meshgridX w h) (meshgridY w h) cx cy).entriesList = some m := hm
  simp [Img.create_radial_gradient, validateImg_ok hw hh, Img.validate_center_coordinates,
    PyVal.isNumeric, Outcome.bind, gridsImg_ok hw hh, PyVal.toQ, hm2, hpos]

theorem radialOnimg_eval {w h : ℕ} {cx cy : ℚ} {m : ℝ}
    (hm : distMax w h cx cy = some m) (hpos : 0 < m) :
    Onimg.create_radial_gradient (.pint (w : ℤ)) (.pint (h : ℤ)) (.pfloat cx) (.pfloat cy)
      = .ok (some (scaleArr (distOf (meshgridX w h) (meshgridY w h) cx cy) m)) := by
  have hm2 : listMax (distOf (meshgridX w h) (meshgridY w h) cx cy).entriesList = some m := hm
  simp [Onimg.create_radial_gradient, PyVal.isInt, PyVal.isFloat, gridsOnimg_ok,
    PyVal.toQ, hm2, ne_of_gt hpos]

/-! The claims. -/

/-- Claim C1: for every positive integer width and height, both variants of
create_coordinate_grids return grids X and Y of shape (height, width) with
X entry (r, c) equal to c / (width - 1) when width is greater than 1 and 0
when width is 1, and symmetrically for Y with the height; in particular a
width or height of 1 raises no division-by-zero error. -/
theorem C1_coordinate_grids (w h r c : ℕ) (hw : 1 ≤ w) (hh : 1 ≤ h)
    (_hr : r < h) (_hc : c < w) :
    gridsShape (Img.create_coordinate_grids (.pint (w : ℤ)) (.pint (h : ℤ)))
      = some (h, w) ∧
    gridXval (Img.create_coordinate_grids (.pint (w : ℤ)) (.pint (h : ℤ))) r c
      = some (if w = 1 then 0 else (c : ℚ) / ((w : ℚ) - 1)) ∧
    gridYval (Img.create_coordinate_grids (.pint (w : ℤ)) (.pint (h : ℤ))) r c
      = some (if h = 1 then 0 else (r : ℚ) / ((h : ℚ) - 1)) ∧
    gridsShape (Onimg.create_coordinate_grids (.pint (w : ℤ)) (.pint (h : ℤ)))
      = some (h, w) ∧
    gridXval (Onimg.create_coordinate_grids (.pint (w : ℤ)) (.pint (h : ℤ))) r c
      = some (if w = 1 then 0 else (c : ℚ) / ((w : ℚ) - 1)) ∧
    gridYval (Onimg.create_coordinate_grids (.pint (w : ℤ)) (.pint (h : ℤ))) r c
      = some (if h = 1 then 0 else (r : ℚ) / ((h : ℚ) - 1)) := by
  have hx : linspace01 w c = if w = 1 then 0 else (c : ℚ) / ((w : ℚ) - 1) := by
    by_cases h1 : w = 1
    · simp [linspace01, h1]
    · have h2 : ¬ w ≤ 1 := by omega
      simp [linspace01, h2, h1]
  have hy : linspace01 h r = if h = 1 then 0 else (r : ℚ) / ((h : ℚ) - 1) := by
    by_cases h1 : h = 1
    · simp [linspace01, h1]
    · have h2 : ¬ h ≤ 1 := by omega
      simp [linspace01, h2, h1]
  rw [gridsImg_ok hw hh, gridsOnimg_ok w h]
  simp [gridsShape, gridXval, gridYval, meshgridX, meshgridY, hx, hy]

/-- Concrete instantiation of the C1 theorem at width 3, height 2 and
entry (1, 2): X there is 2 / (3 - 1) = 1 and the shape is (2, 3). -/
theorem C1_coordinate_grids_witness :
    ((1 : ℕ) ≤ 3 ∧ (1 : ℕ) ≤ 2 ∧ (1 : ℕ) < 2 ∧ (2 : ℕ) < 3) ∧
    (gridsShape (Img.create_coordinate_grids (.pint ((3 : ℕ) : ℤ)) (.pint ((2 : ℕ) : ℤ)))
      = some (2, 3) ∧
    gridXval (Img.create_coordinate_grids (.pint ((3 : ℕ) : ℤ)) (.pint ((2 : ℕ) : ℤ))) 1 2
      = some (if (3 : ℕ) = 1 then 0 else ((2 : ℕ) : ℚ) / (((3 : ℕ) : ℚ) - 1)) ∧
    gridYval (Img.create_coordinate_grids (.pint ((3 : ℕ) : ℤ)) (.pint ((2 : ℕ) : ℤ))) 1 2
      = some (if (2 : ℕ) = 1 then 0 else ((1 : ℕ) : ℚ) / (((2 : ℕ) : ℚ) - 1)) ∧
    gridsShape (Onimg.create_coordinate_grids (.pint ((3 : ℕ) : ℤ)) (.pint ((2 : ℕ) : ℤ)))
      = some (2, 3) ∧
    gridXval (Onimg.create_coordinate_grids (.pint ((3 : ℕ) : ℤ)) (.pint ((2 : ℕ) : ℤ))) 1 2
      = some (if (3 : ℕ) = 1 then 0 else ((2 : ℕ) : ℚ) / (((3 : ℕ) : ℚ) - 1)) ∧
    gridYval (Onimg.create_coordinate_grids (.pint ((3 : ℕ) : ℤ)) (.pint ((2 : ℕ) : ℤ))) 1 2
      = some (if (2 : ℕ) = 1 then 0 else ((1 : ℕ) : ℚ) / (((2 : ℕ) : ℚ) - 1))) :=
  ⟨⟨by decide, by decide, by decide, by decide⟩,
    C1_coordinate_grids 3 2 1 2 (by decide) (by decide) (by decide) (by decide)⟩

/-- Claim C8: applying REVERSE twice restores every field elementwise and
applying FORWARD is the identity, in both modules. -/
theorem C8_direction_laws (g : Arr2 ℚ) (r c : ℕ) :
    (Img.apply_direction_to_gradient
        (Img.apply_direction_to_gradient g .reverse) .reverse).entry r c = g.entry r c ∧
    (Img.apply_direction_to_gradient
        (Img.apply_direction_to_gradient g .reverse) .reverse).rows = g.rows ∧
    (Img.apply_direction_to_gradient
        (Img.apply_direction_to_gradient g .reverse) .reverse).cols = g.cols ∧
    Img.apply_direction_to_gradient g .forward = g ∧
    (Onimg.apply_direction_to_gradient
        (Onimg.apply_direction_to_gradient g .reverse) .reverse).entry r c = g.entry r c ∧
    (Onimg.apply_direction_to_gradient
        (Onimg.apply_direction_to_gradient g .reverse) .reverse).rows = g.rows ∧
    (Onimg.apply_direction_to_gradient
        (Onimg.apply_direction_to_gradient g .reverse) .reverse).cols = g.cols ∧
    Onimg.apply_direction_to_gradient g .forward = g := by
  refine ⟨?_, rfl, rfl, rfl, ?_, rfl, rfl, rfl⟩ <;>
    simp [Img.apply_direction_to_gradient, Onimg.apply_direction_to_gradient]

/-- Claim C10: the width 2.5 (a positive non-integer float) passes
validate_width_and_height of create_gradient_image.py, yet the grid
construction then fails: np.linspace raises a TypeError that no handler in
create_coordinate_grids converts to one of the typed validation failures. -/
theorem C10_float_width_passes_validation_then_fails :
    Img.validate_width_and_height (.pfloat (5 / 2)) (.pint 10) = .ok () ∧
    Img.create_coordinate_grids (.pfloat (5 / 2)) (.pint 10) = .err .typeError := by
  have hv : Img.validate_width_and_height (.pfloat (5 / 2)) (.pint 10) = .ok () := by
    norm_num [Img.validate_width_and_height, PyVal.isNumeric, PyVal.toQ]
  refine ⟨hv, ?_⟩
  simp [Img.create_coordinate_grids, hv, Outcome.bind, linspaceLen]

theorem distMax_one_one : distMax 1 1 0 0 = some 0 := by
  have h1 : (distOf (meshgridX 1 1) (meshgridY 1 1) 0 0).entriesList
      = [(distOf (meshgridX 1 1) (meshgridY 1 1) 0 0).entry 0 0] := by
    simp [Arr2.entriesList, distOf, meshgridX, List.range_succ, List.range_zero,
      List.flatMap_cons, List.flatMap_nil]
  have h2 : (distOf (meshgridX 1 1) (meshgridY 1 1) 0 0).entry 0 0 = 0 := by
    simp [distOf, meshgridX, meshgridY, linspace01, Real.sqrt_zero]
  rw [distMax, h1, h2]
  rfl

/-- Claim C2 counterexample: create_radial_gradient of
create_gradient_on_image.py divides by np.max(radial) unconditionally, so on
the 1-by-1 grid with center (0.0, 0.0), where that maximum is 0, it performs
the division 0.0/0.0 and returns the NaN-filled array (modelled ok none)
instead of the all-zero field the claim promises. -/
theorem C2_radial_unguarded_cex :
    Onimg.create_radial_gradient (.pint 1) (.pint 1)
      (.pfloat 0) (.pfloat 0) = .ok none := by
  have hm2 : listMax (distOf (meshgridX 1 1) (meshgridY 1 1) 0 0).entriesList
      = some 0 := distMax_one_one
  have hg := gridsOnimg_ok 1 1
  simp only [Nat.cast_one] at hg
  simp [Onimg.create_radial_gradient, PyVal.isInt, PyVal.isFloat, hg,
    PyVal.toQ, hm2]

/-- Claim C2 (amended): in create_gradient_image.py, create_radial_gradient
divides by the distance maximum only when that maximum is strictly positive;
when the maximum is 0 (only possible when the center coincides with every
grid point) it returns the raw distance field, which is then all zero.  The
create_gradient_on_image.py variant instead divides unconditionally and
yields a NaN field on that degenerate input (see the counterexample). -/
theorem C2_radial_zero_guard (w h r c : ℕ) (cx cy : ℚ) (hw : 1 ≤ w) (hh : 1 ≤ h)
    (hr : r < h) (hc : c < w) (hmax : distMax w h cx cy = some 0) :
    Outcome.isOk (Img.create_radial_gradient (.pint (w : ℤ)) (.pint (h : ℤ))
      (.pfloat cx) (.pfloat cy)) = true ∧
    radVal (Img.create_radial_gradient (.pint (w : ℤ)) (.pint (h : ℤ))
      (.pfloat cx) (.pfloat cy)) r c = some 0 := by
  have hm2 : listMax (distOf (meshgridX w h) (meshgridY w h) cx cy).entriesList
      = some 0 := hmax
  have hres : Img.create_radial_gradient (.pint (w : ℤ)) (.pint (h : ℤ))
      (.pfloat cx) (.pfloat cy) = .ok (distOf (meshgridX w h) (meshgridY w h) cx cy) := by
    simp [Img.create_radial_gradient, validateImg_ok hw hh,
      Img.validate_center_coordinates, PyVal.isNumeric, Outcome.bind,
      gridsImg_ok hw hh, PyVal.toQ, hm2]
  obtain ⟨hmem, hub⟩ := listMax_spec hm2
  have hent : (distOf (meshgridX w h) (meshgridY w h) cx cy).entry r c
      ∈ (distOf (meshgridX w h) (meshgridY w h) cx cy).entriesList := by
    apply Arr2.entry_mem_entriesList
    · simpa [distOf, meshgridX] using hr
    · simpa [distOf, meshgridX] using hc
  have h0 : (distOf (meshgridX w h) (meshgridY w h) cx cy).entry r c = 0 :=
    le_antisymm (hub _ hent) (distOf_entriesList_nonneg _ _ _ _ _ hent)
  rw [hres]
  exact ⟨rfl, by simp [radVal, h0]⟩

/-- Concrete instantiation of the amended C2 theorem on the 1-by-1 grid with
center (0.0, 0.0): the guarded variant returns a field whose single entry is 0. -/
theorem C2_radial_zero_guard_witness :
    ((1 : ℕ) ≤ 1 ∧ (0 : ℕ) < 1 ∧ distMax 1 1 0 0 = some 0) ∧
    (Outcome.isOk (Img.create_radial_gradient (.pint ((1 : ℕ) : ℤ))
        (.pint ((1 : ℕ) : ℤ)) (.pfloat 0) (.pfloat 0)) = true ∧
      radVal (Img.create_radial_gradient (.pint ((1 : ℕ) : ℤ))
        (.pint ((1 : ℕ) : ℤ)) (.pfloat 0) (.pfloat 0)) 0 0 = some 0) :=
  ⟨⟨by decide, by decide, distMax_one_one⟩,
    C2_radial_zero_guard 1 1 0 0 0 0 (by decide) (by decide) (by decide)
      (by decide) distMax_one_one⟩

/-- Claim C3: for valid radial inputs over a grid with more than one distinct
point, both variants return a field whose np.max is exactly 1 and whose
entries all lie between 0 and 1, for every center placement (the center
rationals are unconstrained, so centers outside the unit square are
covered). -/
theorem C3_radial_normalized (w h r c : ℕ) (cx cy : ℚ) (hw : 1 ≤ w) (hh : 1 ≤ h)
    (hwh : 1 < w ∨ 1 < h) (hr : r < h) (hc : c < w) :
    radMax (Img.create_radial_gradient (.pint (w : ℤ)) (.pint (h : ℤ))
      (.pfloat cx) (.pfloat cy)) = some 1 ∧
    0 ≤ (radVal (Img.create_radial_gradient (.pint (w : ℤ)) (.pint (h : ℤ))
      (.pfloat cx) (.pfloat cy)) r c).getD 0 ∧
    (radVal (Img.create_radial_gradient (.pint (w : ℤ)) (.pint (h : ℤ))
      (.pfloat cx) (.pfloat cy)) r c).getD 0 ≤ 1 ∧
    radMaxOn (Onimg.create_radial_gradient (.pint (w : ℤ)) (.pint (h : ℤ))
      (.pfloat cx) (.pfloat cy)) = some 1 ∧
    0 ≤ (radValOn (Onimg.create_radial_gradient (.pint (w : ℤ)) (.pint (h : ℤ))
      (.pfloat cx) (.pfloat cy)) r c).getD 0 ∧
    (radValOn (Onimg.create_radial_gradient (.pint (w : ℤ)) (.pint (h : ℤ))
      (.pfloat cx) (.pfloat cy)) r c).getD 0 ≤ 1 := by
  obtain ⟨m, hm, hpos, hmem, hub⟩ := radial_master hw hh hwh cx cy
  have hI := radialImg_eval hw hh hm hpos
  have hO := radialOnimg_eval hm hpos
  have hscale : listMax ((scaleArr (distOf (meshgridX w h) (meshgridY w h) cx cy)
      m).entriesList) = some 1 := by
    rw [scaleArr_entriesList]
    exact listMax_scale hmem hub hpos
  have hent : (distOf (meshgridX w h) (meshgridY w h) cx cy).entry r c
      ∈ (distOf (meshgridX w h) (meshgridY w h) cx cy).entriesList := by
    apply Arr2.entry_mem_entriesList
    · simpa [distOf, meshgridX] using hr
    · simpa [distOf, meshgridX] using hc
  have hnn := distOf_entriesList_nonneg _ _ _ _ _ hent
  have hle := hub _ hent
  rw [hI, hO]
  refine ⟨by simp [radMax, hscale], ?_, ?_, by simp [radMaxOn, hscale], ?_, ?_⟩
  · simp only [radVal, scaleArr, Option.getD_some]
    exact div_nonneg hnn hpos.le
  · simp only [radVal, scaleArr, Option.getD_some]
    exact (div_le_one hpos).2 hle
  · simp only [radValOn, scaleArr, Option.getD_some]
    exact div_nonneg hnn hpos.le
  · simp only [radValOn, scaleArr, Option.getD_some]
    exact (div_le_one hpos).2 hle

/-- Concrete instantiation of the C3 theorem on a 2-by-2 grid with the
off-grid center (5, -2), at entry (0, 1). -/
theorem C3_radial_normalized_witness :
    ((1 : ℕ) ≤ 2 ∧ (1 : ℕ) < 2 ∧ (0 : ℕ) < 2 ∧ (1 : ℕ) < 2) ∧
    (radMax (Img.create_radial_gradient (.pint ((2 : ℕ) : ℤ)) (.pint ((2 : ℕ) : ℤ))
      (.pfloat 5) (.pfloat (-2))) = some 1 ∧
    0 ≤ (radVal (Img.create_radial_gradient (.pint ((2 : ℕ) : ℤ)) (.pint ((2 : ℕ) : ℤ))
      (.pfloat 5) (.pfloat (-2))) 0 1).getD 0 ∧
    (radVal (Img.create_radial_gradient (.pint ((2 : ℕ) : ℤ)) (.pint ((2 : ℕ) : ℤ))
      (.pfloat 5) (.pfloat (-2))) 0 1).getD 0 ≤ 1 ∧
    radMaxOn (Onimg.create_radial_gradient (.pint ((2 : ℕ) : ℤ)) (.pint ((2 : ℕ) : ℤ))
      (.pfloat 5) (.pfloat (-2))) = some 1 ∧
    0 ≤ (radValOn (Onimg.create_radial_gradient (.pint ((2 : ℕ) : ℤ)) (.pint ((2 : ℕ) : ℤ))
      (.pfloat 5) (.pfloat (-2))) 0 1).getD 0 ∧
    (radValOn (Onimg.create_radial_gradient (.pint ((2 : ℕ) : ℤ)) (.pint ((2 : ℕ) : ℤ))
      (.pfloat 5) (.pfloat (-2))) 0 1).getD 0 ≤ 1) :=
  ⟨⟨by decide, by decide, by decide, by decide⟩,
    C3_radial_normalized 2 2 0 1 5 (-2) (by decide) (by decide)
      (Or.inl (by decide)) (by decide) (by decide)⟩

theorem clip01_nonneg (x : ℚ) : 0 ≤ clip01 x :=
  le_min (le_max_right x 0) zero_le_one

theorem clip01_le_one (x : ℚ) : clip01 x ≤ 1 :=
  min_le_right _ _

/-- Claim C4 counterexample: create_rgb_combination of
create_gradient_on_image.py stacks the channels without any clamping, so
with a channel field holding the value 2 the returned channel-0 entry is 2,
not clamp(2, 0, 1) = 1, and the output is not confined to the range from 0
to 1. -/
theorem C4_rgb_unclamped_cex :
    rgbVal (Onimg.create_rgb_combination (constArr 1 1 2) (constArr 1 1 0)
      (constArr 1 1 0)) 0 0 0 = some 2 ∧ clip01 2 = 1 ∧ (2 : ℚ) ≠ 1 := by
  refine ⟨?_, ?_, by norm_num⟩
  · simp [Onimg.create_rgb_combination, sameShape3, constArr, stack3, rgbVal]
  · norm_num [clip01]

/-- Claim C4 (amended): in create_gradient_image.py, create_rgb_combination
of three same-shaped fields returns the (height, width, 3) stack with every
channel slice clamped to the range from 0 to 1 (slice k equals the clamp of
channel k), and hence every element between 0 and 1.  The
create_gradient_on_image.py variant stacks without clamping (see the
counterexample). -/
theorem C4_rgb_clamped (a b c : Arr2 ℚ) (i j : ℕ) (k : Fin 3)
    (h1 : a.rows = b.rows) (h2 : a.cols = b.cols)
    (h3 : b.rows = c.rows) (h4 : b.cols = c.cols) :
    rgbShape (Img.create_rgb_combination a b c) = some (a.rows, a.cols) ∧
    rgbVal (Img.create_rgb_combination a b c) i j 0 = some (clip01 (a.entry i j)) ∧
    rgbVal (Img.create_rgb_combination a b c) i j 1 = some (clip01 (b.entry i j)) ∧
    rgbVal (Img.create_rgb_combination a b c) i j 2 = some (clip01 (c.entry i j)) ∧
    0 ≤ (rgbVal (Img.create_rgb_combination a b c) i j k).getD 0 ∧
    (rgbVal (Img.create_rgb_combination a b c) i j k).getD 0 ≤ 1 := by
  have hs : sameShape3 a b c = true := by
    simp [sameShape3, h1, h2, h3, h4]
  simp only [Img.create_rgb_combination, hs, if_true]
  refine ⟨rfl, by simp [rgbVal, stack3], by simp [rgbVal, stack3],
    by simp [rgbVal, stack3], ?_, ?_⟩
  · simp only [rgbVal, Option.getD_some]
    exact clip01_nonneg _
  · simp only [rgbVal, Option.getD_some]
    exact clip01_le_one _

/-- Concrete instantiation of the amended C4 theorem on 1-by-1 fields with
out-of-range values 2 and -1: the guarded variant clamps them to 1 and 0. -/
theorem C4_rgb_clamped_witness :
    ((constArr 1 1 2).rows = (constArr 1 1 0).rows ∧
      (constArr 1 1 2).cols = (constArr 1 1 0).cols ∧
      (constArr 1 1 0).rows = (constArr 1 1 (-1)).rows ∧
      (constArr 1 1 0).cols = (constArr 1 1 (-1)).cols) ∧
    (rgbShape (Img.create_rgb_combination (constArr 1 1 2) (constArr 1 1 0)
        (constArr 1 1 (-1)))
      = some ((constArr 1 1 2).rows, (constArr 1 1 2).cols) ∧
    rgbVal (Img.create_rgb_combination (constArr 1 1 2) (constArr 1 1 0)
        (constArr 1 1 (-1))) 0 0 0
      = some (clip01 ((constArr 1 1 2).entry 0 0)) ∧
    rgbVal (Img.create_rgb_combination (constArr 1 1 2) (constArr 1 1 0)
        (constArr 1 1 (-1))) 0 0 1
      = some (clip01 ((constArr 1 1 0).entry 0 0)) ∧
    rgbVal (Img.create_rgb_combination (constArr 1 1 2) (constArr 1 1 0)
        (constArr 1 1 (-1))) 0 0 2
      = some (clip01 ((constArr 1 1 (-1)).entry 0 0)) ∧
    0 ≤ (rgbVal (Img.create_rgb_combination (constArr 1 1 2) (constArr 1 1 0)
        (constArr 1 1 (-1))) 0 0 0).getD 0 ∧
    (rgbVal (Img.create_rgb_combination (constArr 1 1 2) (constArr 1 1 0)
        (constArr 1 1 (-1))) 0 0 0).getD 0 ≤ 1) :=
  ⟨⟨rfl, rfl, rfl, rfl⟩,
    C4_rgb_clamped (constArr 1 1 2) (constArr 1 1 0) (constArr 1 1 (-1))
      0 0 0 rfl rfl rfl rfl⟩

/-- Claim C5 counterexample: in create_gradient_on_image.py a shape mismatch
between the channels of create_rgb_combination does not surface as a raised
ShapeMismatch failure; the np.stack exception is caught, printed, and the
process is terminated with exit code 1. -/
theorem C5_rgb_mismatch_exits_cex :
    Onimg.create_rgb_combination (constArr 4 4 0) (constArr 5 5 0) (constArr 4 4 0)
      = .exits 1 := by
  simp [Onimg.create_rgb_combination, sameShape3, constArr]

/-- Claim C5 (amended): create_rgb_combination of create_gradient_image.py
raises (a RuntimeError wrapping the np.stack shape mismatch) exactly when
the three fields do not share one shape, succeeds in every other case, and
never terminates the process; the create_gradient_on_image.py variant
instead exits the process on a mismatch. -/
theorem C5_rgb_shape_mismatch (a b c : Arr2 ℚ) :
    Outcome.isOk (Img.create_rgb_combination a b c) = sameShape3 a b c ∧
    Outcome.isErrRT (Img.create_rgb_combination a b c) = !(sameShape3 a b c) ∧
    Outcome.isExits (Img.create_rgb_combination a b c) = false ∧
    Outcome.isOk (Onimg.create_rgb_combination a b c) = sameShape3 a b c ∧
    Outcome.isExits (Onimg.create_rgb_combination a b c) = !(sameShape3 a b c) := by
  cases hs : sameShape3 a b c <;>
    simp [Img.create_rgb_combination, Onimg.create_rgb_combination, hs,
      Outcome.isOk, Outcome.isErrRT, Outcome.isExits]

/-- Claim C6 counterexample: create_linear_gradients of
create_gradient_on_image.py performs no positivity check, so linear(0, 10)
does not raise; it returns a pair of empty fields of shape (10, 0). -/
theorem C6_zero_width_not_rejected_cex :
    Outcome.isOk (Onimg.create_linear_gradients (.pint 0) (.pint 10)) = true ∧
    gridsShape (Onimg.create_linear_gradients (.pint 0) (.pint 10))
      = some (10, 0) := by
  have hg := gridsOnimg_ok 0 10
  simp only [Nat.cast_zero, Nat.cast_ofNat] at hg
  constructor <;>
    simp [Onimg.create_linear_gradients, PyVal.isInt, hg, gridsShape, meshgridX,
      Outcome.isOk]

/-- Claim C6 (amended): the entry points of create_gradient_image.py raise
the dimension failure (ValueError, the InvalidDimension of the design)
whenever width or height is numeric but not positive; the
create_gradient_on_image.py entry points only check the int type, so
linear(0, 10) there returns empty fields (see the counterexample). -/
theorem C6_nonpositive_dims_rejected (w h cx cy : PyVal)
    (hwn : w.isNumeric = true) (hhn : h.isNumeric = true)
    (hle : w.toQ ≤ 0 ∨ h.toQ ≤ 0) :
    Img.create_coordinate_grids w h = .err .valueError ∧
    Img.create_linear_gradients w h = .err .valueError ∧
    Img.create_black_to_white_gradient w h = .err .valueError ∧
    Img.create_radial_gradient w h cx cy = .err .valueError := by
  have hv : Img.validate_width_and_height w h = .err .valueError := by
    simp [Img.validate_width_and_height, hwn, hhn, hle]
  refine ⟨?_, ?_, ?_, ?_⟩ <;>
    simp [Img.create_coordinate_grids, Img.create_linear_gradients,
      Img.create_black_to_white_gradient, Img.create_radial_gradient, hv,
      Outcome.bind]

/-- Concrete instantiation of the amended C6 theorem: linear(0, 10) and the
other entry points of create_gradient_image.py raise the dimension failure. -/
theorem C6_nonpositive_dims_rejected_witness :
    ((PyVal.pint 0).isNumeric = true ∧ (PyVal.pint 10).isNumeric = true ∧
      ((PyVal.pint 0).toQ ≤ 0 ∨ (PyVal.pint 10).toQ ≤ 0)) ∧
    (Img.create_coordinate_grids (.pint 0) (.pint 10) = .err .valueError ∧
    Img.create_linear_gradients (.pint 0) (.pint 10) = .err .valueError ∧
    Img.create_black_to_white_gradient (.pint 0) (.pint 10) = .err .valueError ∧
    Img.create_radial_gradient (.pint 0) (.pint 10) (.pfloat (1 / 2))
      (.pfloat (1 / 2)) = .err .valueError) :=
  ⟨⟨rfl, rfl, Or.inl (by simp [PyVal.toQ])⟩,
    C6_nonpositive_dims_rejected (.pint 0) (.pint 10) (.pfloat (1 / 2))
      (.pfloat (1 / 2)) rfl rfl (Or.inl (by simp [PyVal.toQ]))⟩

theorem validate_wh_not_exits (w h : PyVal) :
    Outcome.isExits (Img.validate_width_and_height w h) = false := by
  unfold Img.validate_width_and_height
  split
  · rfl
  split
  · rfl
  split
  · rfl
  · rfl

theorem validate_center_not_exits (cx cy : PyVal) :
    Outcome.isExits (Img.validate_center_coordinates cx cy) = false := by
  unfold Img.validate_center_coordinates
  split
  · rfl
  split
  · rfl
  · rfl

theorem linspaceLen_not_exits (n : PyVal) :
    Outcome.isExits (linspaceLen n) = false := by
  cases n with
  | pint z =>
    show Outcome.isExits (if z < 0 then .err .valueError else .ok z.toNat) = false
    split
    · rfl
    · rfl
  | pfloat q => rfl
  | other => rfl

theorem bind_not_exits {α β : Type} {o : Outcome α} {f : α → Outcome β}
    (ho : Outcome.isExits o = false) (hf : ∀ a, Outcome.isExits (f a) = false) :
    Outcome.isExits (Outcome.bind o f) = false := by
  cases o with
  | ok a => exact hf a
  | err e => rfl
  | exits n => simp [Outcome.isExits] at ho

theorem gridsImg_not_exits (w h : PyVal) :
    Outcome.isExits (Img.create_coordinate_grids w h) = false := by
  unfold Img.create_coordinate_grids
  apply bind_not_exits (validate_wh_not_exits w h)
  intro u
  apply bind_not_exits (linspaceLen_not_exits w)
  intro wn
  apply bind_not_exits (linspaceLen_not_exits h)
  intro hn
  rfl

theorem radialImg_not_exits (w h cx cy : PyVal) :
    Outcome.isExits (Img.create_radial_gradient w h cx cy) = false := by
  unfold Img.create_radial_gradient
  apply bind_not_exits (validate_wh_not_exits w h)
  intro u
  apply bind_not_exits (validate_center_not_exits cx cy)
  intro v
  have hg := gridsImg_not_exits w h
  cases hcase : Img.create_coordinate_grids w h with
  | ok XY =>
    cases hl : listMax (distOf XY.1 XY.2 cx.toQ cy.toQ).entriesList with
    | some m =>
      by_cases hp : 0 < m <;> simp [hl, hp, Outcome.isExits]
    | none => simp [hl, Outcome.isExits]
  | err e => rfl
  | exits n =>
    rw [hcase] at hg
    simp [Outcome.isExits] at hg

/-- Claim C7 counterexample: create_coordinate_grids of
create_gradient_on_image.py, given width -5 (an int, so the isinstance
checks pass), hits the np.linspace ValueError inside its try block, prints
the diagnostic, and terminates the process with exit code 1 instead of
raising a typed failure to the caller. -/
theorem C7_grids_exit_cex :
    Onimg.create_coordinate_grids (.pint (-5)) (.pint 10) = .exits 1 := by
  simp [Onimg.create_coordinate_grids, PyVal.isInt, linspaceLen]

/-- Claim C7 (amended): the core operations of create_gradient_image.py
never terminate the host process on any input (failures are raised typed
exceptions); the create_gradient_on_image.py module does terminate the
process on internal failures (see the counterexample). -/
theorem C7_img_never_exits (w h cx cy : PyVal) (g1 g2 g3 : Arr2 ℚ) :
    Outcome.isExits (Img.create_coordinate_grids w h) = false ∧
    Outcome.isExits (Img.create_linear_gradients w h) = false ∧
    Outcome.isExits (Img.create_black_to_white_gradient w h) = false ∧
    Outcome.isExits (Img.create_radial_gradient w h cx cy) = false ∧
    Outcome.isExits (Img.create_rgb_combination g1 g2 g3) = false := by
  refine ⟨gridsImg_not_exits w h, ?_, ?_, radialImg_not_exits w h cx cy, ?_⟩
  · unfold Img.create_linear_gradients
    apply bind_not_exits (validate_wh_not_exits w h)
    intro u
    exact gridsImg_not_exits w h
  · unfold Img.create_black_to_white_gradient
    apply bind_not_exits (validate_wh_not_exits w h)
    intro u
    apply bind_not_exits (gridsImg_not_exits w h)
    intro XY
    rfl
  · unfold Img.create_rgb_combination
    split
    · rfl
    · rfl

/-- Claim C9 counterexample: create_radial_gradient of
create_gradient_on_image.py requires the centers to be Python floats, so the
integer center coordinate 0 — a real number the claim says must be
accepted — is rejected with a TypeError. -/
theorem C9_int_center_rejected_cex :
    Onimg.create_radial_gradient (.pint 2) (.pint 2) (.pint 0) (.pfloat (1 / 2))
      = .err .typeError := by
  simp [Onimg.create_radial_gradient, PyVal.isInt, PyVal.isFloat]

/-- Claim C9 (amended): for positive integer dimensions,
create_radial_gradient of create_gradient_image.py raises the center
TypeError (the InvalidCenter of the design) exactly when a center coordinate
is not numeric, and accepts every numeric center — int or float, on-grid or
off-grid — returning a defined field.  The create_gradient_on_image.py
variant additionally rejects int centers (see the counterexample). -/
theorem C9_center_validation (w h : ℕ) (cx cy : PyVal) (hw : 1 ≤ w) (hh : 1 ≤ h) :
    Outcome.isOk (Img.create_radial_gradient (.pint (w : ℤ)) (.pint (h : ℤ)) cx cy)
      = (cx.isNumeric && cy.isNumeric) ∧
    Outcome.isErrTE (Img.create_radial_gradient (.pint (w : ℤ)) (.pint (h : ℤ)) cx cy)
      = !(cx.isNumeric && cy.isNumeric) := by
  have hv := validateImg_ok hw hh
  by_cases hx : cx.isNumeric = true
  · by_cases hy : cy.isNumeric = true
    · have hc : Img.validate_center_coordinates cx cy = .ok () := by
        simp [Img.validate_center_coordinates, hx, hy]
      obtain ⟨m, hm, hnn, hmem, hub⟩ := distMax_exists hw hh cx.toQ cy.toQ
      have hm2 : listMax (distOf (meshgridX w h) (meshgridY w h)
          cx.toQ cy.toQ).entriesList = some m := hm
      by_cases hp : 0 < m <;>
        simp [Img.create_radial_gradient, hv, hc, Outcome.bind,
          gridsImg_ok hw hh, hm2, hp, hx, hy, Outcome.isOk, Outcome.isErrTE]
    · have hc : Img.validate_center_coordinates cx cy = .err .typeError := by
        simp [Img.validate_center_coordinates, hx, hy]
      simp [Img.create_radial_gradient, hv, hc, Outcome.bind, hx, hy,
        Outcome.isOk, Outcome.isErrTE]
  · have hc : Img.validate_center_coordinates cx cy = .err .typeError := by
      simp [Img.validate_center_coordinates, hx]
    simp [Img.create_radial_gradient, hv, hc, Outcome.bind, hx,
      Outcome.isOk, Outcome.isErrTE]

/-- Concrete instantiation of the amended C9 theorem on a 2-by-2 grid with
the mixed center (0, 0.5) — an int and a float coordinate — accepted by the
create_gradient_image.py variant. -/
theorem C9_center_validation_witness :
    ((1 : ℕ) ≤ 2) ∧
    (Outcome.isOk (Img.create_radial_gradient (.pint ((2 : ℕ) : ℤ))
        (.pint ((2 : ℕ) : ℤ)) (.pint 0) (.pfloat (1 / 2)))
      = ((PyVal.pint 0).isNumeric && (PyVal.pfloat (1 / 2)).isNumeric) ∧
    Outcome.isErrTE (Img.create_radial_gradient (.pint ((2 : ℕ) : ℤ))
        (.pint ((2 : ℕ) : ℤ)) (.pint 0) (.pfloat (1 / 2)))
      = !((PyVal.pint 0).isNumeric && (PyVal.pfloat (1 / 2)).isNumeric)) :=
  ⟨by decide,
    C9_center_validation 2 2 (.pint 0) (.pfloat (1 / 2)) (by decide) (by decide)⟩
